import Mathlib

/-!
Shallow embedding of the live-view server of mtplvcap (mtp/server.go) and
proofs about it.

Device replies are modelled as byte lists (each byte a natural number below
256); the outcome of every MTP round-trip a function performs is passed to
it as an explicit parameter, so each definition is a pure translation of
the corresponding Go control flow.
-/

deriving instance DecidableEq for Except

/-- A device-gateway error: either a typed PTP response-code error (an
`RCError` in the Go code, carrying a 16-bit code) or an opaque error. -/
inductive DevErr
  | rc (code : Nat)
  | other
  deriving DecidableEq

/-- PTP response code `RC_NIKON_InvalidStatus`. The constant is declared
outside mtp/server.go; only its distinctness from other codes is used. -/
def RC_NIKON_InvalidStatus : Nat := 0xA002

/-- PTP response code `RC_NIKON_NotLiveView`. The constant is declared
outside mtp/server.go; only its distinctness from other codes is used. -/
def RC_NIKON_NotLiveView : Nat := 0xA00B

/-- One byte of a device reply, as the Go code reads it (uint8). -/
def readU8 (l : List Nat) (i : Nat) : Nat := l.getD i 0 % 256

/-- Big-endian 16-bit read at offset `i`, as `binary.Read` with
`binary.BigEndian` performs it. -/
def readU16BE (l : List Nat) (i : Nat) : Nat :=
  readU8 l i * 256 + readU8 l (i + 1)

/-- Reinterpret a 16-bit unsigned value as Go `int16` (two's complement). -/
def toInt16 (v : Nat) : Int := if v < 32768 then (v : Int) else (v : Int) - 65536

/-- Reinterpret an 8-bit unsigned value as Go `int8` (two's complement). -/
def toInt8 (v : Nat) : Int := if v < 128 then (v : Int) else (v : Int) - 256

/-- The fixed header layout `liveViewRaw` of mtp/server.go. The `DummyN`
padding fields of the Go struct carry no information and are left out; the
remaining fields keep their source names and signedness. -/
structure liveViewRaw where
  LVWidth : Int
  LVHeight : Int
  Width : Int
  Height : Int
  FocusFrameWidth : Int
  FocusFrameHeight : Int
  FocusX : Int
  FocusY : Int
  Rotation : Int
  AutoFocus : Int
  MovieTimeRemainInt : Int
  MovieTimeRemainFrac : Int
  Recording : Int
  deriving DecidableEq

/-- `binary.Read(bytes.NewReader(b), binary.BigEndian, &lvr)`: decodes the
packed 61-byte `liveViewRaw` layout from the front of `b`, failing (with
an unexpected-EOF error) when fewer than 61 bytes are available. Field
offsets follow the Go struct: four int16, 8 pad, four int16, 5 pad, int8
Rotation, 10 pad, int8 AutoFocus, 15 pad, two int16, int8 Recording. -/
def decodeLiveViewRaw (b : List Nat) : Option liveViewRaw :=
  if 61 ≤ b.length then
    some {
      LVWidth := toInt16 (readU16BE b 0)
      LVHeight := toInt16 (readU16BE b 2)
      Width := toInt16 (readU16BE b 4)
      Height := toInt16 (readU16BE b 6)
      FocusFrameWidth := toInt16 (readU16BE b 16)
      FocusFrameHeight := toInt16 (readU16BE b 18)
      FocusX := toInt16 (readU16BE b 20)
      FocusY := toInt16 (readU16BE b 22)
      Rotation := toInt8 (readU8 b 29)
      AutoFocus := toInt8 (readU8 b 40)
      MovieTimeRemainInt := toInt16 (readU16BE b 56)
      MovieTimeRemainFrac := toInt16 (readU16BE b 58)
      Recording := toInt8 (readU8 b 60) }
  else none

/-- The rotation values of the frame store (Rotation0, RotationMinus90,
Rotation90, Rotation180 in the Go sources). -/
inductive Rotation
  | r0
  | minus90
  | r90
  | r180
  deriving DecidableEq

/-- The autofocus states of the frame store (AFNotActive, AFFail,
AFSuccess in the Go sources). -/
inductive AF
  | notActive
  | fail
  | success
  deriving DecidableEq

/-- The decoded `LiveView` record returned by `getLiveViewImgInner`. -/
structure LiveView where
  LVWidth : Int
  LVHeight : Int
  Width : Int
  Height : Int
  FocusFrameWidth : Int
  FocusFrameHeight : Int
  FocusX : Int
  FocusY : Int
  Rotation : Rotation
  AutoFocus : AF
  Recording : Bool
  JPEG : List Nat
  deriving DecidableEq

/-- The Go zero value `LiveView{}` (returned by the dummy-mode
short-circuit of `getLiveViewImg`). -/
def LiveView.zero : LiveView :=
  ⟨0, 0, 0, 0, 0, 0, 0, 0, Rotation.r0, AF.notActive, false, []⟩

/-- The error paths of `getLiveViewImgInner`, one constructor per
`fmt.Errorf` message in the source:
`notLiveView` = "failed to obtain an image: live view is not activated",
`obtainFailed` = "failed to obtain an image: ...",
`insufficientLength` = "failed to obtain an image: the data has
insufficient length", `decodeHeader` = "failed to decode header". -/
inductive LVError
  | notLiveView
  | obtainFailed
  | insufficientLength
  | decodeHeader
  deriving DecidableEq

/-- `getLiveViewImgInner`: `hs` is `s.model.HeaderSize`; `res` is the
outcome of the `OC_NIKON_GetLiveViewImg` transaction (the collected reply
bytes on success). Mirrors the source: a typed `RC_NIKON_NotLiveView`
error is distinguished, a reply of length at most `hs` is rejected as
insufficient, bytes `[8:hs]` are decoded big-endian into `liveViewRaw`,
the rotation and autofocus bytes are mapped, and bytes `[hs:]` become the
JPEG payload. -/
def getLiveViewImgInner (hs : Nat) (res : Except DevErr (List Nat)) :
    Except LVError LiveView :=
  match res with
  | Except.error e =>
    match e with
    | DevErr.rc c =>
      if c = RC_NIKON_NotLiveView then Except.error LVError.notLiveView
      else Except.error LVError.obtainFailed
    | DevErr.other => Except.error LVError.obtainFailed
  | Except.ok raw =>
    if raw.length ≤ hs then Except.error LVError.insufficientLength
    else
      match decodeLiveViewRaw ((raw.drop 8).take (hs - 8)) with
      | none => Except.error LVError.decodeHeader
      | some lvr =>
        let rot :=
          if lvr.Rotation = 1 then Rotation.minus90
          else if lvr.Rotation = 2 then Rotation.r90
          else if lvr.Rotation = 3 then Rotation.r180
          else Rotation.r0
        let af :=
          if lvr.AutoFocus = 1 then AF.fail
          else if lvr.AutoFocus = 2 then AF.success
          else AF.notActive
        Except.ok {
          LVWidth := lvr.LVWidth
          LVHeight := lvr.LVHeight
          Width := lvr.Width
          Height := lvr.Height
          FocusFrameWidth := lvr.FocusFrameWidth
          FocusFrameHeight := lvr.FocusFrameHeight
          FocusX := lvr.FocusX
          FocusY := lvr.FocusY
          Rotation := rot
          AutoFocus := af
          Recording := lvr.Recording == 1
          JPEG := raw.drop hs }

/-- `getLiveViewImg`: the mtpLock wrapper; in dummy mode it short-circuits
with the zero `LiveView{}`. -/
def getLiveViewImg (dummy : Bool) (hs : Nat) (res : Except DevErr (List Nat)) :
    Except LVError LiveView :=
  if dummy then Except.ok LiveView.zero else getLiveViewImgInner hs res

/-- What one captor iteration does after the cancellation check: publish a
frame to the frame store (with its sidecar metadata) or sleep and try
again. -/
inductive CaptorStep
  | publish (jpeg : List Nat) (width height : Int) (iso : Int) (fn : String)
  | sleepContinue
  deriving DecidableEq

/-- One loop iteration of `frameCaptorSakura` after the cancellation
check. In dummy mode the captor sleeps one second and continues. Both
error branches of `getLiveViewImg` (the not-live-view message and any
other error) sleep one second and continue without publishing. On success
the current ISO and f-number are read; a failure of either substitutes the
placeholders 0 and "0" and the frame is still published via `set`. -/
def frameCaptorIter (dummy : Bool) (hs : Nat) (imgRes : Except DevErr (List Nat))
    (isoRes : Except Unit Int) (fnRes : Except Unit String) : CaptorStep :=
  if dummy then CaptorStep.sleepContinue
  else
    match getLiveViewImg dummy hs imgRes with
    | Except.error _ => CaptorStep.sleepContinue
    | Except.ok lv =>
      let iso := match isoRes with
        | Except.ok v => v
        | Except.error _ => 0
      let fn := match fnRes with
        | Except.ok v => v
        | Except.error _ => "0"
      CaptorStep.publish lv.JPEG lv.LVWidth lv.LVHeight iso fn

/-- The MTP opcodes issued by the server (`OC_NIKON_...` constants). -/
inductive Opcode
  | DeviceReady
  | StartLiveView
  | EndLiveView
  | AfDrive
  | GetLiveViewImg
  deriving DecidableEq

/-- The device property codes used by the server (`DPC_...` constants). -/
inductive PropCode
  | LiveViewStatus
  | LiveViewProhibitCondition
  | RecordingMedia
  | Resolution
  | ExposureIndex
  | FNumber
  deriving DecidableEq

/-- A call into the device gateway, as recorded for sequence claims: a
parameterless transaction or a property write with its 16-bit payload. -/
inductive DevCall
  | runNoParams (op : Opcode)
  | setProp (code : PropCode) (value : Nat)
  deriving DecidableEq

/-- Decimal digit accumulation: `some` of the value of the digit string
when every character is a digit, `none` otherwise. -/
def digitsVal (acc : Nat) : List Char → Option Nat
  | [] => some acc
  | c :: cs =>
    if c.isDigit then digitsVal (acc * 10 + (c.toNat - 48)) cs else none

/-- An exact rational kept as an explicit numerator and positive power-of-ten
denominator: the value of a parsed decimal string. Kept unreduced so that
all arithmetic on it evaluates by kernel reduction. -/
structure DecValue where
  num : Int
  den : Nat
  deriving DecidableEq

/-- The decimal-reading stage of `strconv.ParseFloat(fn, 64)`, restricted
to plain decimal strings (optional sign, integer digits, optional
fractional digits): the exact decimal value `sign * (n + f / 10 ^ k)`
returned as the pair `(sign * (n * 10 ^ k + f), 10 ^ k)`. The rounding of
this exact value to a binary64 float happens in `parseGoFloat` below. -/
def parseDecimal (s : String) : Option DecValue :=
  let cs := s.toList
  let signed : Bool × List Char :=
    match cs with
    | '-' :: rest => (true, rest)
    | '+' :: rest => (false, rest)
    | _ => (false, cs)
  let neg := signed.1
  let body := signed.2
  let intPart := body.takeWhile (fun c => c ≠ '.')
  let rest := body.dropWhile (fun c => c ≠ '.')
  let v? : Option DecValue :=
    match rest with
    | [] =>
      match digitsVal 0 intPart with
      | some n => if intPart = [] then none else some ⟨(n : Int), 1⟩
      | none => none
    | _ :: frac =>
      if frac.contains '.' then none
      else
        match digitsVal 0 intPart, digitsVal 0 frac with
        | some n, some f =>
          if intPart = [] ∧ frac = [] then none
          else some ⟨(n : Int) * (10 : Int) ^ frac.length + (f : Int), 10 ^ frac.length⟩
        | _, _ => none
  match v? with
  | some v => some (if neg then ⟨-v.num, v.den⟩ else v)
  | none => none

/-- Floor of log2 for positive `n`, by structural fuel recursion so that
it evaluates by kernel reduction; `log2Fuel n n` computes the usual
`Nat.log2 n` (the fuel `n` bounds the number of halvings). -/
def log2Fuel : Nat → Nat → Nat
  | 0, _ => 0
  | fuel + 1, n => if 2 ≤ n then log2Fuel fuel (n / 2) + 1 else 0

/-- Round the rational `num / den` (`den` positive) to the nearest
integer, ties to even — the IEEE-754 round-to-nearest-even rule. -/
def roundRatHalfEven (num den : Nat) : Nat :=
  let q := num / den
  let r := num % den
  if 2 * r < den then q
  else if den < 2 * r then q + 1
  else if q % 2 = 0 then q else q + 1

/-- Whether `p / q` is at least `2 ^ e`, by cross-multiplication. -/
def ratGePow (p q : Nat) (e : Int) : Bool :=
  if 0 ≤ e then decide (q * 2 ^ e.toNat ≤ p) else decide (q ≤ p * 2 ^ (-e).toNat)

/-- The result of rounding a positive rational to IEEE-754 binary64: a
finite value `m * 2 ^ exp` (with `0 < m < 2 ^ 53`, subnormals included),
an underflow that rounds to zero, or an overflow past the largest finite
binary64 value. -/
inductive Round64
  | finite (m : Nat) (exp : Int)
  | zeroRange
  | overflowRange
  deriving DecidableEq

/-- Correct rounding of the positive rational `p / q` (`p`, `q` positive)
to the nearest IEEE-754 binary64 value, round-to-nearest ties-to-even:
determine `e` with `2 ^ e ≤ p / q < 2 ^ (e + 1)`, round at the ULP scale
`2 ^ (e - 52)` — or at `2 ^ -1074` in the subnormal range `e < -1022` —
renormalize a rounding carry to `2 ^ 53`, and report overflow when the
rounded value reaches `2 ^ 1024`. (With a negative final exponent the
value is below `2 ^ 53`, so overflow is impossible there.) -/
def roundPosRat64 (p q : Nat) : Round64 :=
  let d : Int := (log2Fuel p p : Int) - (log2Fuel q q : Int)
  let e : Int := if ratGePow p q d then d else d - 1
  let rexp : Int := if -1022 ≤ e then e - 52 else -1074
  let m : Nat :=
    if 0 ≤ rexp then roundRatHalfEven p (q * 2 ^ rexp.toNat)
    else roundRatHalfEven (p * 2 ^ (-rexp).toNat) q
  if m = 0 then Round64.zeroRange
  else
    let norm : Nat × Int := if m = 2 ^ 53 then (2 ^ 52, rexp + 1) else (m, rexp)
    let overflow : Bool :=
      if 0 ≤ norm.2 then decide ((2 : Nat) ^ 1024 ≤ norm.1 * 2 ^ norm.2.toNat)
      else false
    if overflow then Round64.overflowRange else Round64.finite norm.1 norm.2

/-- A finite IEEE-754 binary64 value, as sign and magnitude `m * 2 ^ exp`
(the result of `strconv.ParseFloat(fn, 64)` on a parseable string). -/
structure GoFloat where
  neg : Bool
  m : Nat
  exp : Int
  deriving DecidableEq

/-- `strconv.ParseFloat(fn, 64)`: the exact decimal value read by
`parseDecimal`, correctly rounded to the nearest binary64
(round-to-nearest, ties-to-even, subnormals included). ParseFloat
reports a range error alongside the value when rounding overflows to
infinity and when a nonzero decimal rounds to zero, and `setFN` treats
any returned error as a failure, so both cases are `none` here. (Go
omits the range error for nonzero decimals that round to zero while the
decimal exponent stays at least -330 — inputs with over three hundred
fractional digits; that corner is modelled as a range error too.) -/
def parseGoFloat (s : String) : Option GoFloat :=
  match parseDecimal s with
  | none => none
  | some v =>
    if v.num = 0 then some ⟨false, 0, 0⟩
    else
      match roundPosRat64 v.num.natAbs v.den with
      | Round64.finite m e => some ⟨decide (v.num < 0), m, e⟩
      | Round64.zeroRange => none
      | Round64.overflowRange => none

/-- `uint16(fnf * 100)` in Go float64 semantics: the binary64 product of
the parsed value with 100 (the exact product, correctly rounded back to
binary64), truncated toward zero, low 16 bits. For products outside
`[0, 65536)` the Go conversion is implementation-defined: the model takes
the low 16 bits of the truncated magnitude, 0 for negative values, and 0
for a product that overflows to infinity. -/
def fnPayload (v : GoFloat) : Nat :=
  let prod : Round64 :=
    if 0 ≤ v.exp then roundPosRat64 (v.m * 100 * 2 ^ v.exp.toNat) 1
    else roundPosRat64 (v.m * 100) (2 ^ (-v.exp).toNat)
  match prod with
  | Round64.finite m e =>
    if v.neg then 0
    else (if 0 ≤ e then m * 2 ^ e.toNat else m / 2 ^ (-e).toNat) % 65536
  | Round64.zeroRange => 0
  | Round64.overflowRange => 0

/-- The outcomes of `setFN`, one constructor per return path of the
source: success, parse failure, a failed `EndLiveView`, a failed property
write, the `InvalidStatus` restart failure whose message carries the
battery hint, and any other restart failure. -/
inductive SetFNResult
  | ok
  | parseFailed
  | endFailed
  | setPropFailed
  | batteryHint
  | startFailed
  deriving DecidableEq

/-- `setFN`: `dev` gives the outcome of each gateway call; the returned
list is the exact sequence of device calls issued, in order. Mirrors the
source: dummy short-circuit, `strconv.ParseFloat`, `EndLiveView`, write
`FNumber` as `uint16(fnf * 100)` in float64 semantics, `StartLiveView`,
with the `InvalidStatus` restart failure mapped to the battery-hint
error. -/
def setFN (dummy : Bool) (dev : DevCall → Except DevErr Unit) (fn : String) :
    List DevCall × SetFNResult :=
  if dummy then ([], SetFNResult.ok)
  else
    match parseGoFloat fn with
    | none => ([], SetFNResult.parseFailed)
    | some q =>
      let c1 := DevCall.runNoParams Opcode.EndLiveView
      match dev c1 with
      | Except.error _ => ([c1], SetFNResult.endFailed)
      | Except.ok _ =>
        let c2 := DevCall.setProp PropCode.FNumber (fnPayload q)
        match dev c2 with
        | Except.error _ => ([c1, c2], SetFNResult.setPropFailed)
        | Except.ok _ =>
          let c3 := DevCall.runNoParams Opcode.StartLiveView
          match dev c3 with
          | Except.error (DevErr.rc c) =>
            if c = RC_NIKON_InvalidStatus then ([c1, c2, c3], SetFNResult.batteryHint)
            else ([c1, c2, c3], SetFNResult.startFailed)
          | Except.error DevErr.other => ([c1, c2, c3], SetFNResult.startFailed)
          | Except.ok _ => ([c1, c2, c3], SetFNResult.ok)

/-- The state a control message can mutate: the two broadcast info fields
it touches, the mutable AF ticker (running flag and interval in seconds),
and the two atomic knobs. -/
structure CtrlState where
  infoAF : Int
  infoLR : Int
  tickerOn : Bool
  tickerIntervalSec : Int
  afInterval : Int
  lrFPS : Int
  deriving DecidableEq

/-- The observable actions a control message triggers, in the order the
handler performs them. -/
inductive CtrlAct
  | tickerStart
  | tickerStop
  | afStore (v : Int)
  | tickerSetInterval (sec : Int)
  | afNowTrigger
  | lrStore (v : Int)
  | setISOCall (v : Int)
  | setFNCall (s : String)
  deriving DecidableEq

/-- The sparse control message (`ControlPayload` in the source; absent
JSON fields decode to nil pointers, modelled as `none`). -/
structure ControlPayload where
  AFInterval : Option Int
  AFFocusNow : Option Bool
  LRFPS : Option Int
  ISO : Option Int
  FN : Option String
  deriving DecidableEq

/-- One loop iteration of `HandleControl` on a received message. The Go
`continue` in the nonpositive AF-interval branch returns without touching
the remaining fields. `rest` processes fields two to five in source
order: AF-focus-now (a nonblocking trigger send), rate-limit (info update
plus atomic store), ISO write, f-number write; a failure of one device
call is logged and does not abort the later fields, so each is recorded
unconditionally. -/
def processControl (p : ControlPayload) (st0 : CtrlState) :
    CtrlState × List CtrlAct :=
  let rest : CtrlState → List CtrlAct → CtrlState × List CtrlAct :=
    fun st acts =>
      let acts := match p.AFFocusNow with
        | some true => acts ++ [CtrlAct.afNowTrigger]
        | _ => acts
      let stacts : CtrlState × List CtrlAct := match p.LRFPS with
        | some v => ({ st with infoLR := v, lrFPS := v }, acts ++ [CtrlAct.lrStore v])
        | none => (st, acts)
      let st := stacts.1
      let acts := stacts.2
      let acts := match p.ISO with
        | some v => acts ++ [CtrlAct.setISOCall v]
        | none => acts
      let acts := match p.FN with
        | some s => acts ++ [CtrlAct.setFNCall s]
        | none => acts
      (st, acts)
  match p.AFInterval with
  | some v =>
    let st := { st0 with infoAF := v }
    if v > 0 then
      let st := { st with tickerOn := true, afInterval := v, tickerIntervalSec := v }
      rest st [CtrlAct.tickerStart, CtrlAct.afStore v, CtrlAct.tickerSetInterval v]
    else
      ({ st with tickerOn := false }, [CtrlAct.tickerStop])
  | none => rest st0 []

/-- The actions of the last four control fields in the canonical order of
the specification (AF-focus-now, then rate-limit, then ISO, then
f-number). Stated from the specification's words, to be compared with
`processControl`. -/
def ctrlTailActs (p : ControlPayload) : List CtrlAct :=
  (match p.AFFocusNow with
    | some true => [CtrlAct.afNowTrigger]
    | _ => []) ++
  (match p.LRFPS with
    | some v => [CtrlAct.lrStore v]
    | none => []) ++
  (match p.ISO with
    | some v => [CtrlAct.setISOCall v]
    | none => []) ++
  (match p.FN with
    | some s => [CtrlAct.setFNCall s]
    | none => [])

/-- The state effect of the last four control fields (only the rate-limit
field mutates server state). Stated from the specification's words. -/
def ctrlTailState (st : CtrlState) (p : ControlPayload) : CtrlState :=
  match p.LRFPS with
  | some v => { st with infoLR := v, lrFPS := v }
  | none => st

/-- Outcome of a `GetDevicePropValue` read as the Go code distinguishes
it: a value was produced, the read hit end-of-stream (`io.EOF`), or it
failed with some other error. -/
inductive PropReadOutcome
  | okVal
  | eof
  | err
  deriving DecidableEq

/-- `getLiveViewStatusInner`: returns the pair (error, status) of the
source. A non-EOF error is returned as an error; otherwise the status is
true exactly when the read returned `io.EOF`. -/
def getLiveViewStatusInner (r : PropReadOutcome) : Option Unit × Bool :=
  if r = PropReadOutcome.err then (some (), false)
  else (none, r = PropReadOutcome.eof)

/-- `getLiveViewStatus`: dummy short-circuit, then the inner read with its
error wrapped. -/
def getLiveViewStatus (dummy : Bool) (r : PropReadOutcome) : Except Unit Bool :=
  if dummy then Except.ok true
  else
    match getLiveViewStatusInner r with
    | (some _, _) => Except.error ()
    | (none, st) => Except.ok st

/-- What one `workerLV` tick does: log the error and skip, do nothing
because live view is already on, or invoke `startLiveView`. -/
inductive LVTickAct
  | skipLogged
  | nothing
  | invokeStart
  deriving DecidableEq

/-- One tick of `workerLV`: query the status; on error warn and skip; if
on, do nothing; if off, invoke `startLiveView`. -/
def workerLVTick (dummy : Bool) (r : PropReadOutcome) : LVTickAct :=
  match getLiveViewStatus dummy r with
  | Except.error _ => LVTickAct.skipLogged
  | Except.ok true => LVTickAct.nothing
  | Except.ok false => LVTickAct.invokeStart

/-- The 64-iteration scan loop of `bitScan`: test bits `i`, `i+1`, ... for
`fuel` iterations, returning the first set index or -1. -/
def bitScanFrom (val : Nat) : Nat → Nat → Int
  | _, 0 => -1
  | i, fuel + 1 =>
    if val &&& (1 <<< i) > 0 then (i : Int) else bitScanFrom val (i + 1) fuel

/-- `bitScan`: index of the lowest set bit of `val`, or -1 when no bit is
set within the 64 scanned positions. -/
def bitScan (val : Nat) : Int := bitScanFrom val 0 64

/-- The switch of `readLiveViewProhibitCondition` mapping the lowest set
bit of the prohibit-condition bitmap to a reason string. -/
def prohibitReason (val : Nat) : String :=
  let b := bitScan val
  if b = -1 then "(empty)"
  else if b = 0 then "recording destination is the card"
  else if b = 2 then "sequence error"
  else if b = 4 then "button is fully pressed"
  else if b = 5 then "aperture value is set by the lens"
  else if b = 6 then "bulb error"
  else if b = 7 then "during cleaning"
  else if b = 8 then "insufficient battery"
  else if b = 9 then "TTL error"
  else if b = 11 then "non-CPU lens is mounted and the mode is not M"
  else if b = 12 then "there are images which are recorded in SDRAM"
  else if b = 13 then "the release mode is mirror-up"
  else if b = 14 then "no card inserted"
  else if b = 15 then "shot command is being processed"
  else if b = 16 then "shooting in progress"
  else if b = 17 then "overheated"
  else if b = 18 then "card is protected"
  else if b = 19 then "card error"
  else if b = 20 then "card is not formatted"
  else if b = 21 then "bulb error"
  else if b = 22 then "the release mode is mirror-up and it is being processed"
  else if b = 24 then "the lens is not extended"
  else "unknown reason"

/-- `readLiveViewProhibitCondition`: read the 32-bit bitmap (the outcome
is passed in) and map it; a read failure is propagated as an error. -/
def readLiveViewProhibitCondition (r : Except DevErr Nat) : Except Unit String :=
  match r with
  | Except.error _ => Except.error ()
  | Except.ok v => Except.ok (prohibitReason v)

/-- One element of an enum form's `Values` sequence: a raw uint64, or a
value of some other dynamic type (whose assertion to uint64 fails). -/
inductive PropFormVal
  | u64 (v : Nat)
  | nonU64
  deriving DecidableEq

/-- The polymorphic `Form` of a device property descriptor: the enum
variant carries its `Values` sequence. -/
inductive PropForm
  | enum (values : List PropFormVal)
  | nonEnum
  deriving DecidableEq

/-- The assertion loop over an enum form's values: every element must
assert as uint64, else the whole lookup fails. -/
def asU64List : List PropFormVal → Option (List Nat)
  | [] => some []
  | PropFormVal.u64 v :: rest =>
    match asU64List rest with
    | some vs => some (v :: vs)
    | none => none
  | PropFormVal.nonU64 :: _ => none

/-- The model's resolution serialization width (`ResolutionType64` or
`ResolutionType8` in the sources). -/
inductive ResolutionType
  | res64
  | res8
  deriving DecidableEq

/-- Serialization of a chosen resolution value at the model's width: the
Go conversions `Resolution64(v)` (uint64) and `Resolution8(v)` (uint8). -/
def serRes (rt : ResolutionType) (v : Nat) : Nat :=
  match rt with
  | ResolutionType.res64 => v % 2 ^ 64
  | ResolutionType.res8 => v % 2 ^ 8

/-- The outcomes of `changeResolution`: the four `fmt.Errorf` error
returns, the out-of-bounds index on an empty choices slice (a runtime
panic, not a returned error), and success carrying the value written. -/
inductive CRResult
  | getDescFailed
  | notEnumForm
  | notU64
  | setFailed
  | panicked
  | okWrote (value : Nat)
  deriving DecidableEq

/-- `changeResolution`: get the `Resolution` descriptor (outcome
`descRes`), assert the enum form and its uint64 values, index
`choices[len(choices)-1]` (out of bounds when the sequence is empty), and
write it back at the model's width (write outcome `setRes`). -/
def changeResolution (rt : ResolutionType) (descRes : Except DevErr PropForm)
    (setRes : Except DevErr Unit) : CRResult :=
  match descRes with
  | Except.error _ => CRResult.getDescFailed
  | Except.ok form =>
    match form with
    | PropForm.nonEnum => CRResult.notEnumForm
    | PropForm.enum vals =>
      match asU64List vals with
      | none => CRResult.notU64
      | some choices =>
        match choices.getLast? with
        | none => CRResult.panicked
        | some last =>
          match setRes with
          | Except.error _ => CRResult.setFailed
          | Except.ok _ => CRResult.okWrote (serRes rt last)

/-- The `RecordingMediaCard` constant (declared outside mtp/server.go;
only its distinctness from the SDRAM value matters). -/
def RecordingMediaCard : Int := 0

/-- `switchRecordMedia`: get the `RecordingMedia` descriptor (`descRes`;
its payload is the current value when it asserts as int8, `none`
otherwise), and force the media to SDRAM when it is the card. An
assertion surprise is only logged; read and write failures are errors. -/
def switchRecordMedia (descRes : Except DevErr (Option Int))
    (setRes : Except DevErr Unit) : Except Unit Unit :=
  match descRes with
  | Except.error _ => Except.error ()
  | Except.ok cur =>
    match cur with
    | some m =>
      if m = RecordingMediaCard then
        match setRes with
        | Except.error _ => Except.error ()
        | Except.ok _ => Except.ok ()
      else Except.ok ()
    | none => Except.ok ()

/-- The outcomes of `startLiveView`: the camera-not-ready error, a media
switch failure, the propagated panic of `changeResolution`, a failed
prohibit-condition investigation, the `InvalidStatus` failure with its
mapped reason, any other `StartLiveView` failure, and success. -/
inductive SLVResult
  | notReady
  | mediaFailed
  | panicked
  | investigateFailed
  | invalidStatusReason (reason : String)
  | startFailed
  | okStarted
  deriving DecidableEq

/-- `startLiveView`: `DeviceReady` (outcome `readyRes`), the media quirk
step, the max-resolution step (whose error is only warned, while its
panic propagates), then `StartLiveView` (outcome `startRes`); an
`InvalidStatus` failure reads the prohibit-condition bitmap (outcome
`prohibitRes`) and returns the mapped reason as the error. -/
def startLiveView (quirk maxRes : Bool)
    (readyRes : Except DevErr Unit)
    (mediaDesc : Except DevErr (Option Int)) (mediaSet : Except DevErr Unit)
    (rt : ResolutionType) (resDesc : Except DevErr PropForm)
    (resSet : Except DevErr Unit)
    (startRes : Except DevErr Unit) (prohibitRes : Except DevErr Nat) :
    SLVResult :=
  match readyRes with
  | Except.error _ => SLVResult.notReady
  | Except.ok _ =>
    let mediaStep : Except Unit Unit :=
      if quirk then switchRecordMedia mediaDesc mediaSet else Except.ok ()
    match mediaStep with
    | Except.error _ => SLVResult.mediaFailed
    | Except.ok _ =>
      let proceed : SLVResult :=
        match startRes with
        | Except.error (DevErr.rc c) =>
          if c = RC_NIKON_InvalidStatus then
            match readLiveViewProhibitCondition prohibitRes with
            | Except.error _ => SLVResult.investigateFailed
            | Except.ok reason => SLVResult.invalidStatusReason reason
          else SLVResult.startFailed
        | Except.error DevErr.other => SLVResult.startFailed
        | Except.ok _ => SLVResult.okStarted
      if maxRes then
        match changeResolution rt resDesc resSet with
        | CRResult.panicked => SLVResult.panicked
        | _ => proceed
      else proceed

/-- The device identity triple returned by `Device.ID()`. -/
structure DeviceInfo where
  Manufacturer : String
  Product : String
  SerialNumber : String
  deriving DecidableEq

/-- Modelled from the spec: the `Device` gateway implementation is not
under src/ (only mtp/server.go is). The spec states that with no device
attached (dummy mode) every device call short-circuits with canned
values, so the identity call is modelled as returning a canned identity
in dummy mode and the device's own outcome otherwise. -/
def devID (dummy : Bool) (r : Except DevErr DeviceInfo) :
    Except DevErr DeviceInfo :=
  if dummy then Except.ok ⟨"dummy", "dummy", "dummy"⟩ else r

/-- A device property descriptor as the ISO and f-number lookups use it:
its polymorphic form and its `CurrentValue` when that asserts as uint16
(`none` when the assertion fails). -/
structure PropDescR where
  form : PropForm
  currentU16 : Option Nat
  deriving DecidableEq

/-- `getISOs`: dummy short-circuit with the canned list, otherwise read
the `ExposureIndex` descriptor (read outcome `r`, descriptor `desc`; an
`io.EOF` from the read is treated as success), assert the enum form, its
uint64 values and the uint16 current value. Returns the choices and the
current ISO. -/
def getISOs (dummy : Bool) (r : PropReadOutcome) (desc : PropDescR) :
    Except Unit (List Int × Int) :=
  if dummy then Except.ok ([100, 1000, 10000], 100)
  else if r = PropReadOutcome.err then Except.error ()
  else
    match desc.form with
    | PropForm.nonEnum => Except.error ()
    | PropForm.enum vals =>
      match asU64List vals with
      | none => Except.error ()
      | some vs =>
        match desc.currentU16 with
        | none => Except.error ()
        | some cur => Except.ok (vs.map (fun v => (v : Int)), (cur : Int))

/-- `strconv.FormatFloat(float64(v)/100, 'f', -1, 64)` for the 16-bit
property values the server formats: the minimal decimal rendering of
`v / 100`. The float division and shortest-roundtrip formatting of Go are
modelled as exact decimal arithmetic. -/
def formatCenti (v : Nat) : String :=
  let whole := v / 100
  let frac := v % 100
  if frac = 0 then toString whole
  else if frac % 10 = 0 then toString whole ++ "." ++ toString (frac / 10)
  else if frac < 10 then toString whole ++ ".0" ++ toString frac
  else toString whole ++ "." ++ toString frac

/-- `getFNs`: dummy short-circuit with the canned list, otherwise the
same descriptor path as `getISOs` with each value formatted as a decimal
string of `value / 100`. -/
def getFNs (dummy : Bool) (r : PropReadOutcome) (desc : PropDescR) :
    Except Unit (List String × String) :=
  if dummy then Except.ok (["3.5", "10", "22"], "3.5")
  else if r = PropReadOutcome.err then Except.error ()
  else
    match desc.form with
    | PropForm.nonEnum => Except.error ()
    | PropForm.enum vals =>
      match asU64List vals with
      | none => Except.error ()
      | some vs =>
        match desc.currentU16 with
        | none => Except.error ()
        | some cur => Except.ok (vs.map formatCenti, formatCenti cur)

/-- `setISO`: dummy short-circuit, otherwise one `ExposureIndex` property
write whose failure is wrapped as an error. -/
def setISO (dummy : Bool) (r : Except DevErr Unit) : Except Unit Unit :=
  if dummy then Except.ok ()
  else
    match r with
    | Except.error _ => Except.error ()
    | Except.ok _ => Except.ok ()

/-- `autoFocus`: dummy short-circuit, otherwise one `AfDrive` transaction
whose failure is wrapped as an error. -/
def autoFocus (dummy : Bool) (r : Except DevErr Unit) : Except Unit Unit :=
  if dummy then Except.ok ()
  else
    match r with
    | Except.error _ => Except.error ()
    | Except.ok _ => Except.ok ()

/-- `endLiveView`: dummy short-circuit, otherwise one `EndLiveView`
transaction whose failure is wrapped as an error. -/
def endLiveView (dummy : Bool) (r : Except DevErr Unit) : Except Unit Unit :=
  if dummy then Except.ok ()
  else
    match r with
    | Except.error _ => Except.error ()
    | Except.ok _ => Except.ok ()

/-- The outcome of the sequential startup part of `Run()`: the fatal exit
on a failed identity call, or the worker spawn point with the ISO and
f-number lists the info payload was seeded with. -/
inductive StartupOutcome
  | fatalIdentity
  | started (isos : List Int) (fns : List String)
  deriving DecidableEq

/-- The sequential prefix of `Run()`: the identity call (fatal on error),
model resolution (pure), then the ISO and f-number enumerations whose
failures are warned and replaced by the fallbacks `[0]` and `["0"]`. -/
def runStartup (dummy : Bool) (idRes : Except DevErr DeviceInfo)
    (isoR : PropReadOutcome) (isoDesc : PropDescR)
    (fnR : PropReadOutcome) (fnDesc : PropDescR) : StartupOutcome :=
  match devID dummy idRes with
  | Except.error _ => StartupOutcome.fatalIdentity
  | Except.ok _ =>
    let isos := match getISOs dummy isoR isoDesc with
      | Except.ok (l, _) => l
      | Except.error _ => [0]
    let fns := match getFNs dummy fnR fnDesc with
      | Except.ok (l, _) => l
      | Except.error _ => ["0"]
    StartupOutcome.started isos fns

/-- The six mutexes of the server. -/
inductive LockId
  | mtp
  | stream
  | motion
  | control
  | frame
  | info
  deriving DecidableEq

/-- The declared fixed lock order of §5 of the specification: mtpLock,
then streamLock, then motionLock (the broadcaster's stated sub-order),
then controlLock, then frameLock, then infoLock. -/
def lockLevel : LockId → Nat
  | LockId.mtp => 0
  | LockId.stream => 1
  | LockId.motion => 2
  | LockId.control => 3
  | LockId.frame => 4
  | LockId.info => 5

/-- A sequence of nested lock acquisitions respects the declared order
when each acquisition is of a strictly later lock than the previous one. -/
def respectsOrder : List LockId → Bool
  | [] => true
  | [_] => true
  | a :: b :: rest =>
    decide (lockLevel a < lockLevel b) && respectsOrder (b :: rest)

/-- Locks held by `copyFrame`. -/
def copyFrameLocks : List LockId := [LockId.frame]

/-- Locks acquired, in order, by the `set` closure of
`frameCaptorSakura`: frameLock then infoLock. -/
def frameCaptorSetLocks : List LockId := [LockId.frame, LockId.info]

/-- Locks acquired, in order, by the `broadcast` closure of
`workerBroadcastFrame`: streamLock then motionLock (`copyFrame` runs
before the closure, not inside it). -/
def workerBroadcastFrameLocks : List LockId := [LockId.stream, LockId.motion]

/-- Locks acquired, in order, by the `broadcast` closure of
`workerBroadcastInfo`: controlLock, then infoLock, and then frameLock,
because `s.info.Frame = s.copyFrame()` runs while both are held. -/
def workerBroadcastInfoLocks : List LockId :=
  [LockId.control, LockId.info] ++ copyFrameLocks

/-- Locks held by the `setInfo` closure of `HandleControl`. -/
def handleControlSetInfoLocks : List LockId := [LockId.info]

/-- Locks held by `registerStreamClient` and `unregisterStreamClient`. -/
def streamRegistryLocks : List LockId := [LockId.stream]

/-- Locks held by `registerControlClient`, `unregisterControlClient` and
also by `registerMotionClient` (which locks controlLock in the source). -/
def controlRegistryLocks : List LockId := [LockId.control]

/-- Locks held by `unregisterMotionClient`. -/
def motionRegistryLocks : List LockId := [LockId.motion]

/-- Locks held by each thread-safe MTP wrapper (`startLiveView`,
`endLiveView`, `getLiveViewStatus`, `autoFocus`, `getLiveViewImg`,
`getISOs`, `setISO`, `getFNs`, `setFN`): mtpLock alone. -/
def mtpWrapperLocks : List LockId := [LockId.mtp]

/-- Every nested lock-acquisition sequence of mtp/server.go. -/
def allLockSeqs : List (List LockId) :=
  [copyFrameLocks, frameCaptorSetLocks, workerBroadcastFrameLocks,
   workerBroadcastInfoLocks, handleControlSetInfoLocks,
   streamRegistryLocks, controlRegistryLocks, motionRegistryLocks,
   mtpWrapperLocks]



/-! Helper lemmas. -/

theorem readU8_lt (l : List Nat) (i : Nat) : readU8 l i < 256 :=
  Nat.mod_lt _ (by norm_num)

theorem toInt8_eq_small (n k : Nat) (hn : n < 256) (hk : k < 128) :
    toInt8 n = (k : Int) ↔ n = k := by
  unfold toInt8
  split <;> omega

theorem getD_take_drop (l : List Nat) (n o : Nat) (h : o < n) :
    ((l.drop 8).take n).getD o 0 = l.getD (8 + o) 0 := by
  rw [List.getD_eq_getElem?_getD, List.getD_eq_getElem?_getD,
    List.getElem?_take_of_lt h, List.getElem?_drop]

theorem readU8_seg (raw : List Nat) (n o : Nat) (h : o < n) :
    readU8 ((raw.drop 8).take n) o = readU8 raw (8 + o) := by
  unfold readU8
  rw [getD_take_drop raw n o h]

theorem readU16BE_seg (raw : List Nat) (n o : Nat) (h : o + 1 < n) :
    readU16BE ((raw.drop 8).take n) o = readU16BE raw (8 + o) := by
  unfold readU16BE
  rw [readU8_seg raw n o (by omega), readU8_seg raw n (o + 1) h, Nat.add_assoc]

theorem toInt8_eq_one (n : Nat) (hn : n < 256) : toInt8 n = 1 ↔ n = 1 := by
  unfold toInt8
  split <;> omega

theorem toInt8_eq_two (n : Nat) (hn : n < 256) : toInt8 n = 2 ↔ n = 2 := by
  unfold toInt8
  split <;> omega

theorem toInt8_eq_three (n : Nat) (hn : n < 256) : toInt8 n = 3 ↔ n = 3 := by
  unfold toInt8
  split <;> omega

theorem toInt8_beq_one (n : Nat) (hn : n < 256) : (toInt8 n == 1) = (n == 1) := by
  rcases eq_or_ne n 1 with rfl | h
  · rfl
  · have h8 : toInt8 n ≠ 1 := fun hc => h ((toInt8_eq_one n hn).mp hc)
    have e1 : (toInt8 n == 1) = false := beq_eq_false_iff_ne.mpr h8
    have e2 : (n == 1) = false := beq_eq_false_iff_ne.mpr h
    rw [e1, e2]

/-- C1: for every live-view reply buffer longer than `model.HeaderSize`
(the header being large enough for the fixed 61-byte layout, as every
model's header is), `getLiveViewImgInner` parses bytes `[8:HeaderSize]`
big-endian into the `liveViewRaw` layout, returns bytes `[HeaderSize:]`
as the JPEG payload, maps the rotation byte 0 to 0 degrees, 1 to -90, 2
to +90, 3 to 180 and anything else to 0, and maps the autofocus byte 1 to
Fail, 2 to Success and anything else (including 0) to NotActive. -/
theorem getLiveViewImgInner_parses_header (hs : Nat) (raw : List Nat)
    (hhs : 69 ≤ hs) (hlen : hs < raw.length) :
    getLiveViewImgInner hs (Except.ok raw) = Except.ok {
      LVWidth := toInt16 (readU16BE raw 8)
      LVHeight := toInt16 (readU16BE raw 10)
      Width := toInt16 (readU16BE raw 12)
      Height := toInt16 (readU16BE raw 14)
      FocusFrameWidth := toInt16 (readU16BE raw 24)
      FocusFrameHeight := toInt16 (readU16BE raw 26)
      FocusX := toInt16 (readU16BE raw 28)
      FocusY := toInt16 (readU16BE raw 30)
      Rotation :=
        if readU8 raw 37 = 1 then Rotation.minus90
        else if readU8 raw 37 = 2 then Rotation.r90
        else if readU8 raw 37 = 3 then Rotation.r180
        else Rotation.r0
      AutoFocus :=
        if readU8 raw 48 = 1 then AF.fail
        else if readU8 raw 48 = 2 then AF.success
        else AF.notActive
      Recording := readU8 raw 68 == 1
      JPEG := raw.drop hs } := by
  have hnot : ¬ raw.length ≤ hs := by omega
  have hlen61 : 61 ≤ ((raw.drop 8).take (hs - 8)).length := by
    rw [List.length_take, List.length_drop]
    omega
  have hdec : decodeLiveViewRaw ((raw.drop 8).take (hs - 8)) = some {
      LVWidth := toInt16 (readU16BE raw 8)
      LVHeight := toInt16 (readU16BE raw 10)
      Width := toInt16 (readU16BE raw 12)
      Height := toInt16 (readU16BE raw 14)
      FocusFrameWidth := toInt16 (readU16BE raw 24)
      FocusFrameHeight := toInt16 (readU16BE raw 26)
      FocusX := toInt16 (readU16BE raw 28)
      FocusY := toInt16 (readU16BE raw 30)
      Rotation := toInt8 (readU8 raw 37)
      AutoFocus := toInt8 (readU8 raw 48)
      MovieTimeRemainInt := toInt16 (readU16BE raw 64)
      MovieTimeRemainFrac := toInt16 (readU16BE raw 66)
      Recording := toInt8 (readU8 raw 68) } := by
    rw [decodeLiveViewRaw, if_pos hlen61]
    rw [readU16BE_seg raw (hs - 8) 0 (by omega), readU16BE_seg raw (hs - 8) 2 (by omega),
      readU16BE_seg raw (hs - 8) 4 (by omega), readU16BE_seg raw (hs - 8) 6 (by omega),
      readU16BE_seg raw (hs - 8) 16 (by omega), readU16BE_seg raw (hs - 8) 18 (by omega),
      readU16BE_seg raw (hs - 8) 20 (by omega), readU16BE_seg raw (hs - 8) 22 (by omega),
      readU8_seg raw (hs - 8) 29 (by omega), readU8_seg raw (hs - 8) 40 (by omega),
      readU16BE_seg raw (hs - 8) 56 (by omega), readU16BE_seg raw (hs - 8) 58 (by omega),
      readU8_seg raw (hs - 8) 60 (by omega)]
  simp only [getLiveViewImgInner, if_neg hnot, hdec]
  simp only [Except.ok.injEq, LiveView.mk.injEq,
    toInt8_eq_one _ (readU8_lt raw 37), toInt8_eq_two _ (readU8_lt raw 37),
    toInt8_eq_three _ (readU8_lt raw 37), toInt8_eq_one _ (readU8_lt raw 48),
    toInt8_eq_two _ (readU8_lt raw 48), toInt8_beq_one _ (readU8_lt raw 68)]

theorem getLiveViewImgInner_parses_header_witness :
    (69 : Nat) ≤ 69 ∧
    getLiveViewImgInner 69
      (Except.ok (List.replicate 37 0 ++ [2] ++ List.replicate 10 0 ++ [1] ++
        List.replicate 20 0 ++ [7])) =
      Except.ok { LiveView.zero with
        Rotation := Rotation.r90, AutoFocus := AF.fail, JPEG := [7] } := by
  refine ⟨by norm_num, ?_⟩
  have h := getLiveViewImgInner_parses_header 69
    (List.replicate 37 0 ++ [2] ++ List.replicate 10 0 ++ [1] ++
      List.replicate 20 0 ++ [7]) (by norm_num) (by decide)
  exact h.trans (by decide)

/-- C2: a capture reply whose byte length is at most `model.HeaderSize`
(including exactly `HeaderSize`) makes `getLiveViewImgInner` return the
insufficient-length error, and the captor iteration publishes no frame to
the frame store: it sleeps and continues. -/
theorem insufficientLength_no_publish (hs : Nat) (raw : List Nat)
    (isoRes : Except Unit Int) (fnRes : Except Unit String)
    (hlen : raw.length ≤ hs) :
    getLiveViewImgInner hs (Except.ok raw) = Except.error LVError.insufficientLength ∧
    frameCaptorIter false hs (Except.ok raw) isoRes fnRes = CaptorStep.sleepContinue ∧
    ∀ jpeg w h iso fn, frameCaptorIter false hs (Except.ok raw) isoRes fnRes ≠
      CaptorStep.publish jpeg w h iso fn := by
  have h1 : getLiveViewImgInner hs (Except.ok raw) =
      Except.error LVError.insufficientLength := by
    simp [getLiveViewImgInner, hlen]
  have h2 : frameCaptorIter false hs (Except.ok raw) isoRes fnRes =
      CaptorStep.sleepContinue := by
    simp [frameCaptorIter, getLiveViewImg, h1]
  exact ⟨h1, h2, fun jpeg w h iso fn hc => by rw [h2] at hc; cases hc⟩

set_option maxRecDepth 4000 in
theorem insufficientLength_no_publish_witness :
    (List.replicate 384 0).length ≤ 384 ∧
    getLiveViewImgInner 384 (Except.ok (List.replicate 384 0)) =
      Except.error LVError.insufficientLength ∧
    frameCaptorIter false 384 (Except.ok (List.replicate 384 0))
      (Except.ok 100) (Except.ok "5.6") = CaptorStep.sleepContinue := by
  have h := insufficientLength_no_publish 384 (List.replicate 384 0)
    (Except.ok 100) (Except.ok "5.6") (by simp)
  exact ⟨by simp, h.1, h.2.1⟩

/-- C3: for a decimal string that parses, `setFN` issues exactly the
sequence EndLiveView, SetDevicePropValue(FNumber, uint16(fn * 100)) —
the payload computed in Go's float64 semantics, so fn = "5.6" writes 560
— then StartLiveView; an `InvalidStatus` restart failure yields the
battery-hint error after the full sequence; and a failure at the first
or second step stops the sequence there. -/
theorem setFN_sequence (dev : DevCall → Except DevErr Unit) (fn : String)
    (q : GoFloat) (hq : parseGoFloat fn = some q) :
    (dev (DevCall.runNoParams Opcode.EndLiveView) = Except.ok () →
      dev (DevCall.setProp PropCode.FNumber (fnPayload q)) = Except.ok () →
      dev (DevCall.runNoParams Opcode.StartLiveView) = Except.ok () →
      setFN false dev fn =
        ([DevCall.runNoParams Opcode.EndLiveView,
          DevCall.setProp PropCode.FNumber (fnPayload q),
          DevCall.runNoParams Opcode.StartLiveView], SetFNResult.ok)) ∧
    (dev (DevCall.runNoParams Opcode.EndLiveView) = Except.ok () →
      dev (DevCall.setProp PropCode.FNumber (fnPayload q)) = Except.ok () →
      dev (DevCall.runNoParams Opcode.StartLiveView) =
        Except.error (DevErr.rc RC_NIKON_InvalidStatus) →
      setFN false dev fn =
        ([DevCall.runNoParams Opcode.EndLiveView,
          DevCall.setProp PropCode.FNumber (fnPayload q),
          DevCall.runNoParams Opcode.StartLiveView], SetFNResult.batteryHint)) ∧
    (∀ e, dev (DevCall.runNoParams Opcode.EndLiveView) = Except.error e →
      setFN false dev fn =
        ([DevCall.runNoParams Opcode.EndLiveView], SetFNResult.endFailed)) ∧
    (∀ e, dev (DevCall.runNoParams Opcode.EndLiveView) = Except.ok () →
      dev (DevCall.setProp PropCode.FNumber (fnPayload q)) = Except.error e →
      setFN false dev fn =
        ([DevCall.runNoParams Opcode.EndLiveView,
          DevCall.setProp PropCode.FNumber (fnPayload q)],
          SetFNResult.setPropFailed)) := by
  refine ⟨fun h1 h2 h3 => ?_, fun h1 h2 h3 => ?_, fun e h1 => ?_,
    fun e h1 h2 => ?_⟩
  · simp [setFN, hq, h1, h2, h3]
  · simp [setFN, hq, h1, h2, h3]
  · simp [setFN, hq, h1]
  · simp [setFN, hq, h1, h2]

set_option maxRecDepth 4000 in
theorem setFN_sequence_witness :
    parseGoFloat "5.6" = some ⟨false, 6305039478318694, -50⟩ ∧
    fnPayload ⟨false, 6305039478318694, -50⟩ = 560 ∧
    setFN false (fun _ => Except.ok ()) "5.6" =
      ([DevCall.runNoParams Opcode.EndLiveView,
        DevCall.setProp PropCode.FNumber 560,
        DevCall.runNoParams Opcode.StartLiveView], SetFNResult.ok) ∧
    parseGoFloat "8.2" = some ⟨false, 4616189618054758, -49⟩ ∧
    fnPayload ⟨false, 4616189618054758, -49⟩ = 819 ∧
    setFN false (fun _ => Except.ok ()) "8.2" =
      ([DevCall.runNoParams Opcode.EndLiveView,
        DevCall.setProp PropCode.FNumber 819,
        DevCall.runNoParams Opcode.StartLiveView], SetFNResult.ok) := by
  have h1 := (setFN_sequence (fun _ => Except.ok ()) "5.6"
    ⟨false, 6305039478318694, -50⟩ (by decide)).1 rfl rfl rfl
  have h2 := (setFN_sequence (fun _ => Except.ok ()) "8.2"
    ⟨false, 4616189618054758, -49⟩ (by decide)).1 rfl rfl rfl
  exact ⟨by decide, by decide, h1.trans (by decide), by decide, by decide,
    h2.trans (by decide)⟩

/-- C5: with a real device, `getLiveViewStatus` reports live view as on
exactly when the property read returns end-of-stream; a successful
non-empty read reports off; any other read error is propagated, making
the lifecycle tick log and skip without invoking `startLiveView`; and
`startLiveView` is invoked exactly when the reported status is off. -/
theorem liveViewStatus_eof_is_on :
    (∀ r, getLiveViewStatus false r = Except.ok true ↔ r = PropReadOutcome.eof) ∧
    getLiveViewStatus false PropReadOutcome.okVal = Except.ok false ∧
    getLiveViewStatus false PropReadOutcome.err = Except.error () ∧
    workerLVTick false PropReadOutcome.err = LVTickAct.skipLogged ∧
    workerLVTick false PropReadOutcome.eof = LVTickAct.nothing ∧
    (∀ r, workerLVTick false r = LVTickAct.invokeStart ↔
      getLiveViewStatus false r = Except.ok false) :=
  ⟨fun r => by cases r <;> decide, by decide, by decide, by decide, by decide,
    fun r => by cases r <;> decide⟩

/-- C4: a control message's present fields are evaluated in the fixed
order AF interval, AF-focus-now, rate-limit, ISO, f-number; a present AF
interval of at most zero stops the ticker and skips every remaining field
of the message; a positive AF interval starts the ticker, stores the
value and sets the interval, then the remaining fields follow in order. -/
theorem processControl_order (p : ControlPayload) (st : CtrlState) :
    (∀ v, p.AFInterval = some v → v ≤ 0 →
      processControl p st =
        ({ st with infoAF := v, tickerOn := false }, [CtrlAct.tickerStop])) ∧
    (∀ v, p.AFInterval = some v → 0 < v →
      processControl p st =
        (ctrlTailState
          { st with
            infoAF := v
            tickerOn := true
            afInterval := v
            tickerIntervalSec := v } p,
          [CtrlAct.tickerStart, CtrlAct.afStore v, CtrlAct.tickerSetInterval v] ++
            ctrlTailActs p)) ∧
    (p.AFInterval = none →
      processControl p st = (ctrlTailState st p, ctrlTailActs p)) := by
  obtain ⟨afi, afn, lr, iso, fn⟩ := p
  refine ⟨?_, ?_, ?_⟩
  · rintro v hv hle
    cases hv
    simp only [processControl]
    rw [if_neg (by omega)]
  · rintro v hv hpos
    cases hv
    simp only [processControl, ctrlTailState, ctrlTailActs]
    rw [if_pos hpos]
    rcases afn with _ | b
    · cases lr <;> cases iso <;> cases fn <;> simp
    · cases b <;> cases lr <;> cases iso <;> cases fn <;> simp
  · rintro hv
    cases hv
    simp only [processControl, ctrlTailState, ctrlTailActs]
    rcases afn with _ | b
    · cases lr <;> cases iso <;> cases fn <;> simp
    · cases b <;> cases lr <;> cases iso <;> cases fn <;> simp

theorem processControl_order_witness :
    processControl ⟨some 0, some true, some 30, some 100, some "9"⟩
        ⟨5, 0, true, 5, 5, 0⟩ =
      (⟨0, 0, false, 5, 5, 0⟩, [CtrlAct.tickerStop]) := by
  have h := (processControl_order ⟨some 0, some true, some 30, some 100, some "9"⟩
    ⟨5, 0, true, 5, 5, 0⟩).1 0 rfl (by norm_num)
  exact h.trans (by decide)

theorem and_shiftLeft_pos_iff (val i : Nat) :
    0 < val &&& (1 <<< i) ↔ val.testBit i = true := by
  rw [Nat.shiftLeft_eq, one_mul, Nat.and_two_pow]
  cases h : val.testBit i <;> simp [h]

theorem bitScanFrom_found (val : Nat) :
    ∀ (fuel i k : Nat), k < fuel → val.testBit (i + k) = true →
      (∀ j, j < k → val.testBit (i + j) = false) →
      bitScanFrom val i fuel = ((i + k : Nat) : Int) := by
  intro fuel
  induction fuel with
  | zero => intro i k hk; omega
  | succ f ih =>
    intro i k hk hbit hmin
    simp only [bitScanFrom]
    by_cases h0 : 0 < val &&& (1 <<< i)
    · rw [if_pos h0]
      have hb : val.testBit i = true := (and_shiftLeft_pos_iff val i).mp h0
      have hk0 : k = 0 := by
        by_contra hne
        have hf := hmin 0 (by omega)
        rw [Nat.add_zero] at hf
        rw [hf] at hb
        cases hb
      subst hk0
      simp
    · rw [if_neg h0]
      have hb0 : val.testBit i = false := by
        cases h : val.testBit i
        · rfl
        · exact absurd ((and_shiftLeft_pos_iff val i).mpr h) h0
      have hkpos : 0 < k := by
        rcases Nat.eq_zero_or_pos k with h | h
        · subst h
          rw [Nat.add_zero] at hbit
          rw [hbit] at hb0
          cases hb0
        · exact h
      have hres := ih (i + 1) (k - 1) (by omega)
        (by rw [show i + 1 + (k - 1) = i + k by omega]; exact hbit)
        (fun j hj => by
          rw [show i + 1 + j = i + (j + 1) by omega]
          exact hmin (j + 1) (by omega))
      rw [hres]
      congr 1
      omega

theorem bitScan_lowest (val : Nat) (h32 : val < 2 ^ 32) (hne : val ≠ 0) :
    ∃ i : Nat, bitScan val = (i : Int) ∧ val.testBit i = true ∧
      ∀ j, j < i → val.testBit j = false := by
  have hex : ∃ i, val.testBit i = true := by
    obtain ⟨i, hi, _⟩ := Nat.exists_most_significant_bit hne
    exact ⟨i, hi⟩
  refine ⟨Nat.find hex, ?_, Nat.find_spec hex, ?_⟩
  · have hmin : ∀ j, j < Nat.find hex → val.testBit j = false := by
      intro j hj
      have := Nat.find_min hex hj
      simpa using this
    have hi32 : Nat.find hex < 32 := by
      by_contra hge
      have hlt : val < 2 ^ Nat.find hex :=
        lt_of_lt_of_le h32 (Nat.pow_le_pow_right (by norm_num) (by omega))
      have := Nat.testBit_lt_two_pow hlt
      rw [Nat.find_spec hex] at this
      cases this
    have := bitScanFrom_found val 64 0 (Nat.find hex) (by omega)
      (by rw [Nat.zero_add]; exact Nat.find_spec hex)
      (fun j hj => by rw [Nat.zero_add]; exact hmin j hj)
    rw [bitScan, this, Nat.zero_add]
  · intro j hj
    have := Nat.find_min hex hj
    simpa using this

/-- C6: when `StartLiveView` fails with `InvalidStatus`, the prohibit
bitmap is read and its lowest set bit selects the reason string: an
all-zero bitmap gives "(empty)", lowest bit 8 gives the
insufficient-battery message, lowest bit 14 gives "no card inserted", and
a lowest set bit outside the table gives "unknown reason"; `bitScan`
returns the index of the lowest set bit, or -1 for zero. -/
theorem prohibit_lowest_bit (val : Nat) (h32 : val < 2 ^ 32) :
    (val = 0 → bitScan val = -1 ∧ prohibitReason val = "(empty)") ∧
    (val ≠ 0 → ∃ i : Nat, bitScan val = (i : Int) ∧ val.testBit i = true ∧
      (∀ j, j < i → val.testBit j = false) ∧
      (i = 8 → prohibitReason val = "insufficient battery") ∧
      (i = 14 → prohibitReason val = "no card inserted") ∧
      ((i : Int) ∉ ([0, 2, 4, 5, 6, 7, 8, 9, 11, 12, 13, 14, 15, 16, 17,
          18, 19, 20, 21, 22, 24] : List Int) →
        prohibitReason val = "unknown reason")) ∧
    (∀ w, startLiveView false false (Except.ok ()) (Except.error DevErr.other)
      (Except.error DevErr.other) ResolutionType.res64
      (Except.error DevErr.other) (Except.error DevErr.other)
      (Except.error (DevErr.rc RC_NIKON_InvalidStatus)) (Except.ok w) =
      SLVResult.invalidStatusReason (prohibitReason w)) := by
  refine ⟨?_, ?_, ?_⟩
  · rintro rfl
    exact ⟨by decide, by decide⟩
  · intro hne
    obtain ⟨i, hb, hbit, hmin⟩ := bitScan_lowest val h32 hne
    refine ⟨i, hb, hbit, hmin, ?_, ?_, ?_⟩
    · rintro rfl
      simp only [prohibitReason, hb]
      norm_num
    · rintro rfl
      simp only [prohibitReason, hb]
      norm_num
    · intro hnotin
      simp only [List.mem_cons, List.mem_singleton] at hnotin
      push_neg at hnotin
      obtain ⟨h0, h2, h4, h5, h6, h7, h8, h9, h11, h12, h13, h14, h15, h16,
        h17, h18, h19, h20, h21, h22, h24⟩ := hnotin
      have hm1 : (i : Int) ≠ -1 := by omega
      simp [prohibitReason, hb, hm1, h0, h2, h4, h5, h6, h7, h8, h9, h11,
        h12, h13, h14, h15, h16, h17, h18, h19, h20, h21, h22, h24]
  · intro w
    simp [startLiveView, readLiveViewProhibitCondition, switchRecordMedia,
      RC_NIKON_InvalidStatus]

theorem prohibit_lowest_bit_witness :
    (256 : Nat) < 2 ^ 32 ∧ (256 : Nat) ≠ 0 ∧
    prohibitReason 256 = "insufficient battery" := by
  refine ⟨by norm_num, by norm_num, ?_⟩
  obtain ⟨i, hb, hbit, hmin, h8, _, _⟩ :=
    (prohibit_lowest_bit 256 (by norm_num)).2.1 (by norm_num)
  have hb8 : bitScan 256 = 8 := by decide
  rw [hb8] at hb
  exact h8 (by omega)

theorem pairwise_le_getLast? :
    ∀ (l : List Nat), l.Pairwise (· ≤ ·) →
      ∀ last, l.getLast? = some last → ∀ x ∈ l, x ≤ last := by
  intro l
  induction l with
  | nil => intro _ last h; simp at h
  | cons a t ih =>
    intro hp last hlast x hx
    cases t with
    | nil =>
      simp at hlast hx
      omega
    | cons b t' =>
      rw [List.getLast?_cons_cons] at hlast
      rcases List.mem_cons.mp hx with rfl | hx'
      · have hmem : last ∈ b :: t' := by
          obtain ⟨h, rfl⟩ :=
            List.mem_getLast?_eq_getLast (Option.mem_def.mpr hlast)
          exact List.getLast_mem h
        exact (List.pairwise_cons.mp hp).1 last hmem
      · exact ih (List.pairwise_cons.mp hp).2 last hlast x hx'

/-- C7 counterexample: with the enum values sequence [2, 1] the code
writes back the last value 1, not the numerically largest value 2, so the
claim that the largest enumerated value is written does not hold. -/
theorem changeResolution_not_largest :
    changeResolution ResolutionType.res64
      (Except.ok (PropForm.enum [PropFormVal.u64 2, PropFormVal.u64 1]))
      (Except.ok ()) = CRResult.okWrote 1 ∧
    (∀ x ∈ ([2, 1] : List Nat), x ≤ 2) ∧ (2 : Nat) ∈ ([2, 1] : List Nat) ∧
    (1 : Nat) ≠ 2 := by decide

/-- C7 amended: when `maxResolution` is set, `changeResolution` reads the
`Resolution` enum form and — for every non-empty uint64 enumeration,
ascending or not — writes back the LAST enumerated raw value, serialized
at the model's width (Res8 or Res64); that value is the numerically
largest exactly when the device reports its choices in ascending order;
and any failure of this step (here: a failed write-back) is only warned
and does not fail `startLiveView`. -/
theorem changeResolution_writes_last (rt : ResolutionType)
    (vals : List PropFormVal) (choices : List Nat)
    (setRes : Except DevErr Unit)
    (mediaDesc : Except DevErr (Option Int)) (mediaSet : Except DevErr Unit)
    (prohibitRes : Except DevErr Nat)
    (hvals : asU64List vals = some choices) (hne : choices ≠ []) :
    ∃ last, choices.getLast? = some last ∧
      changeResolution rt (Except.ok (PropForm.enum vals)) (Except.ok ()) =
        CRResult.okWrote (serRes rt last) ∧
      (changeResolution rt (Except.ok (PropForm.enum vals)) setRes =
          CRResult.setFailed ∨
        changeResolution rt (Except.ok (PropForm.enum vals)) setRes =
          CRResult.okWrote (serRes rt last)) ∧
      (List.Chain' (· ≤ ·) choices → ∀ x ∈ choices, x ≤ last) ∧
      startLiveView false true (Except.ok ()) mediaDesc mediaSet rt
        (Except.ok (PropForm.enum vals)) setRes (Except.ok ()) prohibitRes =
        SLVResult.okStarted := by
  obtain ⟨last, hl⟩ : ∃ last, choices.getLast? = some last := by
    cases choices with
    | nil => exact absurd rfl hne
    | cons a t => exact ⟨_, List.getLast?_eq_getLast_of_ne_nil (by simp)⟩
  refine ⟨last, hl, ?_, ?_, ?_, ?_⟩
  · simp [changeResolution, hvals, hl]
  · cases setRes with
    | error e => left; simp [changeResolution, hvals, hl]
    | ok u => right; simp [changeResolution, hvals, hl]
  · intro hsorted
    exact pairwise_le_getLast? choices (List.chain'_iff_pairwise.mp hsorted)
      last hl
  · cases setRes with
    | error e => simp [startLiveView, changeResolution, hvals, hl]
    | ok u => simp [startLiveView, changeResolution, hvals, hl]

theorem changeResolution_writes_last_witness :
    changeResolution ResolutionType.res64
      (Except.ok (PropForm.enum
        [PropFormVal.u64 3, PropFormVal.u64 1, PropFormVal.u64 2]))
      (Except.ok ()) = CRResult.okWrote 2 ∧
    startLiveView false true (Except.ok ()) (Except.error DevErr.other)
      (Except.error DevErr.other) ResolutionType.res64
      (Except.ok (PropForm.enum
        [PropFormVal.u64 3, PropFormVal.u64 1, PropFormVal.u64 2]))
      (Except.error DevErr.other) (Except.ok ()) (Except.ok 0) =
      SLVResult.okStarted := by
  obtain ⟨last, hl, heq, hor, hmax, hstart⟩ :=
    changeResolution_writes_last ResolutionType.res64
      [PropFormVal.u64 3, PropFormVal.u64 1, PropFormVal.u64 2] [3, 1, 2]
      (Except.error DevErr.other) (Except.error DevErr.other)
      (Except.error DevErr.other) (Except.ok 0) (by decide) (by decide)
  have hl2 : some (2 : Nat) = some last := by
    rw [← hl]
    decide
  have h2 : last = 2 := by
    injection hl2 with h
    exact h.symm
  subst h2
  exact ⟨heq.trans (by decide), hstart⟩

/-- C8: with no attached device (dummy mode), every device-gateway call
made by `Run()` and the workers short-circuits with canned values or
sleep-loops, independently of any device outcome, so the startup sequence
and every worker step complete without touching the device and without
faulting. -/
theorem dummy_run_short_circuits :
    (∀ idRes isoR isoDesc fnR fnDesc,
      runStartup true idRes isoR isoDesc fnR fnDesc =
        StartupOutcome.started [100, 1000, 10000] ["3.5", "10", "22"]) ∧
    (∀ r, getLiveViewStatus true r = Except.ok true) ∧
    (∀ r, workerLVTick true r = LVTickAct.nothing) ∧
    (∀ hs imgRes isoRes fnRes,
      frameCaptorIter true hs imgRes isoRes fnRes = CaptorStep.sleepContinue) ∧
    (∀ hs imgRes, getLiveViewImg true hs imgRes = Except.ok LiveView.zero) ∧
    (∀ r, autoFocus true r = Except.ok ()) ∧
    (∀ r, endLiveView true r = Except.ok ()) ∧
    (∀ r d, getISOs true r d = Except.ok ([100, 1000, 10000], 100)) ∧
    (∀ r d, getFNs true r d = Except.ok (["3.5", "10", "22"], "3.5")) ∧
    (∀ r, setISO true r = Except.ok ()) ∧
    (∀ dev fn, setFN true dev fn = ([], SetFNResult.ok)) := by
  refine ⟨?_, ?_, ?_, ?_, ?_, ?_, ?_, ?_, ?_, ?_, ?_⟩ <;> intros <;>
    simp [runStartup, devID, getISOs, getFNs, getLiveViewStatus, workerLVTick,
      frameCaptorIter, getLiveViewImg, autoFocus, endLiveView, setISO, setFN]

/-- C9 (code bug): the broadcast closure of `workerBroadcastInfo` acquires
controlLock, then infoLock, and then — through the `copyFrame` call made
while both are held — frameLock; holding infoLock while acquiring
frameLock inverts the declared frameLock-then-infoLock order, which
`frameCaptorSakura`'s `set` closure follows, so the declared fixed lock
order is violated on this path (and the two paths can deadlock). Every
other nested acquisition sequence in the file respects the order. -/
theorem lockOrder_broadcastInfo_inverts :
    workerBroadcastInfoLocks = [LockId.control, LockId.info, LockId.frame] ∧
    respectsOrder workerBroadcastInfoLocks = false ∧
    lockLevel LockId.frame < lockLevel LockId.info ∧
    frameCaptorSetLocks = [LockId.frame, LockId.info] ∧
    respectsOrder frameCaptorSetLocks = true ∧
    (∀ l ∈ allLockSeqs, l ≠ workerBroadcastInfoLocks →
      respectsOrder l = true) := by
  decide

/-- C10: with an empty enum `Values` sequence, `changeResolution` does
not return a handled error: it indexes `choices[len(choices)-1]` out of
bounds and panics; a non-empty uint64 `Values` sequence never reaches the
panic, so non-emptiness is a precondition for totality. -/
theorem changeResolution_empty_panics (rt : ResolutionType)
    (setRes : Except DevErr Unit) (vals : List PropFormVal)
    (choices : List Nat) (hvals : asU64List vals = some choices)
    (hne : choices ≠ []) :
    changeResolution rt (Except.ok (PropForm.enum [])) setRes =
      CRResult.panicked ∧
    changeResolution rt (Except.ok (PropForm.enum vals)) setRes ≠
      CRResult.panicked := by
  constructor
  · simp [changeResolution, asU64List]
  · obtain ⟨last, hl⟩ : ∃ last, choices.getLast? = some last := by
      cases choices with
      | nil => exact absurd rfl hne
      | cons a t => exact ⟨_, List.getLast?_eq_getLast_of_ne_nil (by simp)⟩
    cases setRes <;> simp [changeResolution, hvals, hl]

theorem changeResolution_empty_panics_witness :
    changeResolution ResolutionType.res8 (Except.ok (PropForm.enum []))
      (Except.ok ()) = CRResult.panicked ∧
    changeResolution ResolutionType.res8
      (Except.ok (PropForm.enum [PropFormVal.u64 5])) (Except.ok ()) ≠
      CRResult.panicked :=
  changeResolution_empty_panics ResolutionType.res8 (Except.ok ())
    [PropFormVal.u64 5] [5] (by decide) (by decide)
